import Mathlib

/-!
Shallow embedding of src/quickstart.py, a script that bootstraps a Sinch
sample project: it resolves a small configuration (user values, defaults,
key aliases), downloads an SDK archive, extracts it, injects credentials
into one source file by text substitution, and relocates the result to the
Desktop.  Python dictionaries parsed from JSON are modelled by JVal, the
filesystem and the network are modelled by an explicit World record, and
each fallible step returns an Except value carrying the exception message.
-/

/-- Values decoded from the JSON configuration payload: strings, nested
objects (Python dicts, modelled as association lists with distinct keys in
insertion order) and null.  Other JSON shapes (numbers, arrays) never occur
in the configurations the script documents and are omitted. -/
inductive JVal where
  | str : String → JVal
  | obj : List (String × JVal) → JVal
  | jnull : JVal

/-- The Config class of quickstart.py: user supplied values, default
values, and a table mapping human readable keys to the short keys actually
used in the payload (self.aliases). -/
structure Config where
  values : JVal
  defaults : JVal
  aliases : List (String × String)

/-- Model of the Python expression key.split(".", 1) over the character
list of the key: the segment before the first dot, and, when a dot exists,
the remainder after it. -/
def splitFirstDotAux : List Char → List Char × Option (List Char)
  | [] => ([], none)
  | c :: rest =>
    if c = '.' then ([], some rest)
    else
      let p := splitFirstDotAux rest
      (c :: p.1, p.2)

/-- String form of splitFirstDotAux, mirroring key.split(".", 1). -/
def splitFirstDot (s : String) : String × Option String :=
  let p := splitFirstDotAux s.data
  (String.mk p.1, p.2.map String.mk)

/-- Config._get_value.  The fuel argument models the Python recursion
budget (the source recurses once per dot-separated segment; a cyclic alias
table would make CPython hit its recursion limit, which the fuel-exhausted
branch represents).  A present-but-null value behaves like an absent one,
exactly as the "v is None" test in the source.  Calling .get on a non-dict
value raises AttributeError in Python, modelled by the error branch. -/
def get_value (aliases : List (String × String)) :
    Nat → JVal → String → Bool → Except String (Option JVal)
  | 0, _, _, _ => .error "maximum recursion depth exceeded"
  | fuel + 1, values, key0, useAlias =>
    let key := if useAlias then (List.lookup key0 aliases).getD key0 else key0
    let parts := splitFirstDot key
    match values with
    | JVal.obj m =>
      match List.lookup parts.1 m with
      | none => .ok none
      | some JVal.jnull => .ok none
      | some v =>
        match parts.2 with
        | none => .ok (some v)
        | some rest => get_value aliases fuel v rest true
    | _ => .error "AttributeError: object has no attribute get"

/-- Config.__getitem__: look the key up in the user values (with alias
substitution), fall back to the defaults (without alias substitution), and
raise KeyError naming the requested key when both passes come back empty.
-/
def Config.getitem (cfg : Config) (fuel : Nat) (key : String) :
    Except String JVal :=
  match get_value cfg.aliases fuel cfg.values key true with
  | .error e => .error e
  | .ok (some v) => .ok v
  | .ok none =>
    match get_value cfg.aliases fuel cfg.defaults key false with
    | .error e => .error e
    | .ok (some v) => .ok v
    | .ok none => .error ("Missing value for key \x27" ++ key ++ "\x27")

/-- Module level constant DEFAULT_ARCHIVE_URL. -/
def DEFAULT_ARCHIVE_URL : String := "http://www.sinch.com/ios-sdk"

/-- Module level constant DEFAULT_SINCH_ENVIRONMENT. -/
def DEFAULT_SINCH_ENVIRONMENT : String := "sandbox.sinch.com"

/-- The keyaliases table built in read_config. -/
def keyaliases : List (String × String) :=
  [("archive", "a"),
   ("sample", "s"),
   ("credentials.application_key", "c.k"),
   ("credentials.application_secret", "c.s"),
   ("credentials.environment", "c.e")]

/-- The defaults mapping built in read_config. -/
def configDefaults : JVal :=
  JVal.obj
    [("archive", JVal.str DEFAULT_ARCHIVE_URL),
     ("credentials", JVal.obj [("environment", JVal.str DEFAULT_SINCH_ENVIRONMENT)])]

/-- The read_config function, after the Base64 and JSON decoding that is
outside this embedding: it packages the decoded values with the fixed
defaults and alias table. -/
def read_config (values : JVal) : Config :=
  Config.mk values configDefaults keyaliases

/-- Tokens of a parsed re.sub replacement template: literal characters and
references to group 0 (the whole match; the placeholder patterns in
quickstart.py contain no capturing groups, so every other group reference
is an error). -/
inductive TemplTok where
  | lit : Char → TemplTok
  | group0 : TemplTok

/-- Octal digit test used by replacement template parsing. -/
def isOct (c : Char) : Bool := '0' ≤ c && c ≤ '7'

/-- Numeric value of a decimal digit character. -/
def digitVal (c : Char) : Nat := c.toNat - '0'.toNat

/-- The fixed escape table of re replacement templates (backslash followed
by one of a b f n r t v or a second backslash). -/
def templEscape : Char → Option Char
  | 'a' => some (Char.ofNat 7)
  | 'b' => some (Char.ofNat 8)
  | 'f' => some (Char.ofNat 12)
  | 'n' => some (Char.ofNat 10)
  | 'r' => some (Char.ofNat 13)
  | 't' => some (Char.ofNat 9)
  | 'v' => some (Char.ofNat 11)
  | '\\' => some '\\'
  | _ => none

/-- ASCII letter test (the reserved unknown escapes of re templates). -/
def isAsciiLetter (c : Char) : Bool :=
  ('a' ≤ c && c ≤ 'z') || ('A' ≤ c && c ≤ 'Z')

/-- Identifier shaped group name, as Python str.isidentifier restricted to
ASCII (the only group names relevant here). -/
def isIdentName (l : List Char) : Bool :=
  match l with
  | [] => false
  | c :: rest =>
    (c.isAlpha || c = '_') && rest.all (fun d => d.isAlphanum || d = '_')

/-- Natural number denoted by a list of decimal digits. -/
def natOfDigits (l : List Char) : Nat :=
  l.foldl (fun acc c => 10 * acc + digitVal c) 0

/-- Handling of a group reference written with the backslash-g syntax of
re replacement templates.  The patterns of quickstart.py have no capturing
groups, so the only reference that resolves is group 0, the whole match;
all others raise, as does a malformed reference. -/
def parseGroupRef (name : List Char) : Except String TemplTok :=
  if name.isEmpty then .error "missing group name"
  else if name.all Char.isDigit then
    if natOfDigits name = 0 then .ok TemplTok.group0
    else .error "invalid group reference"
  else if isIdentName name then .error "unknown group name"
  else .error "bad character in group name"

/-- Parser for re.sub replacement templates, following the CPython
template rules for a pattern with no capturing groups: backslash-g group
references, octal escapes, one or two digit group numbers (a three octal
digit sequence is an octal character escape), the fixed escape table,
reserved unknown ASCII-letter escapes, and other unknown escapes left
alone.  The fuel argument only bounds recursion and every call consumes at
least one character, so fuel at least the template length is exact. -/
def parseTemplateAux : Nat → List Char → Except String (List TemplTok)
  | 0, _ => .error "out of fuel"
  | _ + 1, [] => .ok []
  | fuel + 1, c :: rest =>
    if c = '\\' then
      match rest with
      | [] => .error "bad escape (end of pattern)"
      | c2 :: rest2 =>
        if c2 = 'g' then
          match rest2 with
          | '<' :: rest3 =>
            let name := rest3.takeWhile (fun d => d ≠ '>')
            match rest3.drop name.length with
            | '>' :: rest4 =>
              match parseGroupRef name with
              | .error e => .error e
              | .ok tok =>
                (parseTemplateAux fuel rest4).map (fun ts => tok :: ts)
            | _ => .error "missing >, unterminated name"
          | _ => .error "missing <"
        else if c2 = '0' then
          match rest2 with
          | d1 :: rest3 =>
            if isOct d1 then
              match rest3 with
              | d2 :: rest4 =>
                if isOct d2 then
                  (parseTemplateAux fuel rest4).map
                    (fun ts => TemplTok.lit (Char.ofNat (8 * digitVal d1 + digitVal d2)) :: ts)
                else
                  (parseTemplateAux fuel rest3).map
                    (fun ts => TemplTok.lit (Char.ofNat (digitVal d1)) :: ts)
              | [] => .ok [TemplTok.lit (Char.ofNat (digitVal d1))]
            else
              (parseTemplateAux fuel rest2).map
                (fun ts => TemplTok.lit (Char.ofNat 0) :: ts)
          | [] => .ok [TemplTok.lit (Char.ofNat 0)]
        else if '1' ≤ c2 && c2 ≤ '9' then
          match rest2 with
          | d2 :: rest3 =>
            if d2.isDigit then
              match rest3 with
              | d3 :: rest4 =>
                if isOct c2 && isOct d2 && isOct d3 then
                  (parseTemplateAux fuel rest4).map
                    (fun ts =>
                      TemplTok.lit
                        (Char.ofNat (64 * digitVal c2 + 8 * digitVal d2 + digitVal d3)) :: ts)
                else .error "invalid group reference"
              | [] => .error "invalid group reference"
            else .error "invalid group reference"
          | [] => .error "invalid group reference"
        else
          match templEscape c2 with
          | some e => (parseTemplateAux fuel rest2).map (fun ts => TemplTok.lit e :: ts)
          | none =>
            if isAsciiLetter c2 then .error "bad escape"
            else
              (parseTemplateAux fuel rest2).map
                (fun ts => TemplTok.lit '\\' :: TemplTok.lit c2 :: ts)
    else (parseTemplateAux fuel rest).map (fun ts => TemplTok.lit c :: ts)

/-- Parse a replacement template, with enough fuel for its length. -/
def parseTemplate (repl : List Char) : Except String (List TemplTok) :=
  parseTemplateAux (repl.length + 1) repl

/-- Expansion of a parsed template at one match: literals stand for
themselves and a group 0 reference stands for the matched text. -/
def expandToks (toks : List TemplTok) (matched : List Char) : List Char :=
  toks.foldr
    (fun t acc =>
      match t with
      | TemplTok.lit c => c :: acc
      | TemplTok.group0 => matched ++ acc) []

/-- Text written in place of one match whose matched text is the given
list, for a given replacement value; an error is a raised re.error. -/
def substitutedText (repl matched : List Char) : Except String (List Char) :=
  (parseTemplate repl).map (fun ts => expandToks ts matched)

/-- Literal pattern substitution engine of re.sub for patterns without
metacharacters (the two placeholder patterns of quickstart.py are plain
text): scan left to right, replace the leftmost match, continue after it,
and stop replacing once the remaining replacement budget is zero.  The
fuel argument only bounds recursion; every step consumes at least one
source character, so fuel above the source length is exact for the
nonempty patterns this file uses. -/
def subLitAux (pat : List Char) (toks : List TemplTok) :
    Nat → Nat → List Char → List Char
  | 0, _, s => s
  | _ + 1, _, [] => []
  | _ + 1, 0, s => s
  | fuel + 1, left + 1, c :: cs =>
    if pat.isPrefixOf (c :: cs) then
      expandToks toks pat ++ subLitAux pat toks fuel left (cs.drop (pat.length - 1))
    else c :: subLitAux pat toks fuel (left + 1) cs

/-- The call re.sub(pat, repl, src, count) for a literal pattern: the repl
template is parsed up front (raising even when nothing matches), and count
follows the Python convention that zero means unlimited — for a nonempty
pattern there are at most src.length matches, so a budget of
src.length + 1 is no bound at all. -/
def pySubLit (pat : List Char) (repl : List Char) (count : Nat)
    (src : List Char) : Except String (List Char) :=
  match parseTemplate repl with
  | .error e => .error e
  | .ok toks =>
    .ok (subLitAux pat toks (src.length + 1)
      (if count = 0 then src.length + 1 else count) src)

/-- The fixed tail of the environment pattern: the characters of
.sinch.com followed by a closing double quote. -/
def sinchTail : List Char := ".sinch.com\"".data

/-- Greedy extent of the dot-star part of the pattern matching a double
quote, any characters other than newline, then .sinch.com and a closing
quote, when the engine stands right after the opening quote: the largest
number of newline-free characters that can be skipped so that the fixed
tail follows, if any. -/
def findGreedy (rest : List Char) : Option Nat :=
  (List.range (rest.length + 1)).reverse.find?
    (fun t =>
      ((rest.take t).all (fun c => c ≠ '\n')) && sinchTail.isPrefixOf (rest.drop t))

/-- Substitution engine for the environment hostname pattern of
quickstart.py (a double quoted string ending in .sinch.com): leftmost
match, greedy dot-star, continue after each match, bounded by the
remaining replacement budget.  Fuel as in subLitAux. -/
def subSinchAux (toks : List TemplTok) : Nat → Nat → List Char → List Char
  | 0, _, s => s
  | _ + 1, _, [] => []
  | _ + 1, 0, s => s
  | fuel + 1, left + 1, c :: cs =>
    if c = '"' then
      match findGreedy cs with
      | some t =>
        expandToks toks ('"' :: (cs.take t ++ sinchTail)) ++
          subSinchAux toks fuel left (cs.drop (t + sinchTail.length))
      | none => c :: subSinchAux toks fuel (left + 1) cs
    else c :: subSinchAux toks fuel (left + 1) cs

/-- The call re.sub on the environment hostname pattern, with the same
template and count conventions as pySubLit. -/
def pySubSinch (repl : List Char) (count : Nat) (src : List Char) :
    Except String (List Char) :=
  match parseTemplate repl with
  | .error e => .error e
  | .ok toks =>
    .ok (subSinchAux toks (src.length + 1)
      (if count = 0 then src.length + 1 else count) src)

/-- The application key placeholder pattern of inject_credentials. -/
def keyPlaceholder : List Char := "<APPLICATION KEY>".data

/-- The application secret placeholder pattern of inject_credentials. -/
def secretPlaceholder : List Char := "<APPLICATION SECRET>".data

/-- Bootstrap.inject_credentials restricted to its pure core: the three
substitutions applied to the content of AppDelegate.m.  The source sets
opts to re.MULTILINE and passes it as the fourth positional argument of
re.sub, which is the count parameter, not flags; re.MULTILINE has numeric
value 8, so each substitution replaces at most 8 occurrences.  The
environment replacement string is the environment value wrapped in double
quotes before template processing.  An error is an exception raised before
the file is written back. -/
def inject_credentials_source (application_key application_secret environment : String)
    (source : String) : Except String String :=
  match pySubLit keyPlaceholder application_key.data 8 source.data with
  | .error e => .error e
  | .ok s1 =>
    match pySubLit secretPlaceholder application_secret.data 8 s1 with
    | .error e => .error e
    | .ok s2 =>
      match pySubSinch ('"' :: environment.data ++ ['"']) 8 s2 with
      | .error e => .error e
      | .ok s3 => .ok (String.mk s3)

/-- The lambda ordinal2suffix of get_desktop_candidate: the empty string
for 0, otherwise a dash followed by the decimal ordinal (in CPython the
test x is 0 is identity on cached small integers, so it behaves as
equality with 0 for every value produced by range). -/
def ordinal2suffix (x : Nat) : String :=
  if x = 0 then "" else "-" ++ toString x

/-- Loop body of get_desktop_candidate: try the candidate with the current
ordinal against the existence predicate, advancing the ordinal while
attempts remain. -/
def findCandidateAux (pathExists : String → Bool) (basepath : String) :
    Nat → Nat → Except String String
  | _, 0 => .error "Could not find suitable target directory in ~/Desktop"
  | i, n + 1 =>
    let p := basepath ++ ordinal2suffix i
    if pathExists p then findCandidateAux pathExists basepath (i + 1) n
    else .ok p

/-- Bootstrap.get_desktop_candidate: assert a nonempty base path, then try
the 99 candidates produced by range(99) in order, returning the first one
the existence predicate rejects; exhausting all raises.  The filesystem is
abstracted by the existence predicate. -/
def get_desktop_candidate (pathExists : String → Bool) (basepath : String) :
    Except String String :=
  if basepath.length = 0 then .error "AssertionError"
  else findCandidateAux pathExists basepath 0 99

/-- The 99 candidate paths in the order the loop of get_desktop_candidate
tries them: the bare base path, then the base path with suffixes -1 to
-98. -/
def desktopCandidates (basepath : String) : List String :=
  (List.range 99).map (fun i => basepath ++ ordinal2suffix i)

/-- Model of os.path.basename for the URL strings the script handles:
everything after the last slash. -/
def basename (s : String) : String :=
  String.mk ((s.data.reverse.takeWhile (fun c => c ≠ '/')).reverse)

/-- Model of os.path.join for the relative component paths the script
joins (never absolute second arguments). -/
def os_path_join (a b : String) : String := a ++ "/" ++ b

/-- Externally observable side effects of one pipeline run, in order: the
urlopen network call, the archive extraction, the in-place rewrite of
AppDelegate.m, the recursive copy to the Desktop, and the two external
open invocations. -/
inductive Event where
  | urlopen : Event
  | extract : Event
  | inject : Event
  | copytree : Event
  | openFinder : Event
  | openXcode : Event
deriving DecidableEq

/-- Abstraction of everything outside the script during one run: whether
the network call succeeds, the final URL after redirects, the size of the
downloaded file, what the tarfile library reports for it, whether the
expected sample directory appears after extraction, the content of the
AppDelegate.m file of the selected sample (none when the file cannot be
opened), the Desktop location, which Desktop candidate paths are occupied,
and whether the xcodeproj path exists for the final open call. -/
structure World where
  urlopenOk : Bool
  actualUrl : Option String
  downloadedSize : Nat
  isTar : Bool
  bz2Ok : Bool
  sampleExists : Bool
  appDelegate : Option String
  desktopExists : Bool
  desktopPath : String
  pathOccupied : String → Bool
  xcodeprojExists : Bool

/-- Name of the downloaded file: the basename of the final URL when the
response reports one, else the fixed fallback name. -/
def packageName (w : World) : String :=
  match w.actualUrl with
  | some u => basename u
  | none => "Sinch.download.tmp"

/-- Bootstrap.download_archive: resolve the archive URL from the
configuration, perform the urlopen network call, stream the body to the
temporary directory, and reject an empty result naming the configured URL
and the destination.  The returned string is the archive path. -/
def Bootstrap.download_archive (cfg : Config) (fuel : Nat) (w : World)
    (tmp : String) : List Event × Except String String :=
  match cfg.getitem fuel "archive" with
  | .error e => ([], .error e)
  | .ok (JVal.str url) =>
    if w.urlopenOk then
      let dst := os_path_join tmp (packageName w)
      if w.downloadedSize = 0 then
        ([Event.urlopen],
         .error ("Failed to download \x27" ++ url ++ "\x27 to \x27" ++ dst ++ "\x27"))
      else ([Event.urlopen], .ok dst)
    else ([Event.urlopen], .error "urlopen failed")
  | .ok _ => ([], .error "TypeError: url must be a string")

/-- Message of the tarfile.ReadError raised by tarfile.open in mode r:bz2
on an archive that is not bz2 compressed. -/
def tarReadErrorMsg : String := "ReadError: file could not be opened successfully"

/-- Bootstrap.unpack: reject a file the tarfile library cannot read at
all, then open it as a bz2 compressed tar (which raises for any other
compression) and extract everything into the destination directory. -/
def Bootstrap.unpack (w : World) (tar_path dst_dir : String) :
    List Event × Except String String :=
  if w.isTar then
    if w.bz2Ok then ([Event.extract], .ok dst_dir)
    else ([], .error tarReadErrorMsg)
  else ([], .error ("Unable to read package file " ++ tar_path))

/-- The samples dictionary of Bootstrap.sample_project_name. -/
def sampleTable : List (String × String) :=
  [("im", "SinchIM"),
   ("app-to-app", "SinchCalling"),
   ("app-to-phone", "SinchPSTN"),
   ("video", "SinchVideo")]

/-- Dictionary get on the samples table: only a string sample value can
name a project (the dictionary is keyed by strings). -/
def samplesGet : JVal → Option String
  | JVal.str s => List.lookup s sampleTable
  | _ => none

/-- Bootstrap.sample_project_name: resolve the sample name and map it
through the samples dictionary, raising the unknown sample error when the
lookup misses. -/
def Bootstrap.sample_project_name (cfg : Config) (fuel : Nat) :
    Except String String :=
  match cfg.getitem fuel "sample" with
  | .error e => .error e
  | .ok v =>
    match samplesGet v with
    | some p => .ok p
    | none => .error "Could not determine which sample to prepare"

/-- Bootstrap.inject_credentials as a pipeline step: resolve the three
credential values (each must be a string for re.sub), open AppDelegate.m
inside the sample directory, rewrite its content with the three
substitutions, and write it back. -/
def Bootstrap.inject_credentials (cfg : Config) (fuel : Nat) (w : World)
    (sample_app_path : String) : List Event × Except String String :=
  let target := os_path_join sample_app_path "AppDelegate.m"
  match cfg.getitem fuel "credentials.application_key" with
  | .error e => ([], .error e)
  | .ok (JVal.str application_key) =>
    match cfg.getitem fuel "credentials.application_secret" with
    | .error e => ([], .error e)
    | .ok (JVal.str application_secret) =>
      match cfg.getitem fuel "credentials.environment" with
      | .error e => ([], .error e)
      | .ok (JVal.str environment) =>
        match w.appDelegate with
        | none => ([], .error ("IOError: could not open " ++ target))
        | some content =>
          match inject_credentials_source application_key application_secret
              environment content with
          | .error e => ([], .error e)
          | .ok newContent => ([Event.inject], .ok newContent)
      | .ok _ => ([], .error "TypeError: repl must be a string")
    | .ok _ => ([], .error "TypeError: repl must be a string")
  | .ok _ => ([], .error "TypeError: repl must be a string")

/-- Bootstrap.move_to_desktop: require the Desktop directory, build the
base name from the configured sample, pick a collision-free candidate and
copy the session directory there.  The returned string is the new session
path. -/
def Bootstrap.move_to_desktop (cfg : Config) (fuel : Nat) (w : World)
    (_tmp : String) : List Event × Except String String :=
  if w.desktopExists then
    match cfg.getitem fuel "sample" with
    | .error e => ([], .error e)
    | .ok (JVal.str s) =>
      match get_desktop_candidate w.pathOccupied
          (os_path_join w.desktopPath ("Sinch-" ++ s)) with
      | .error e => ([], .error e)
      | .ok dst => ([Event.copytree], .ok dst)
    | .ok _ => ([], .error "TypeError: cannot concatenate str and non-str"
)
  else ([], .error "Could not locate your Desktop folder")

/-- Bootstrap.run: the linear pipeline.  The first statement logs the
sample name, which resolves the sample key (and can raise a missing key
error) without validating it; validation against the samples dictionary
only happens inside verify_unpacked, via sample_project_name, after the
download and the extraction.  The trace lists the side effects performed
before the run finished or aborted. -/
def Bootstrap.run (cfg : Config) (fuel : Nat) (w : World) (tmp : String) :
    List Event × Except String Unit :=
  match cfg.getitem fuel "sample" with
  | .error e => ([], .error e)
  | .ok _ =>
    match Bootstrap.download_archive cfg fuel w tmp with
    | (ev1, .error e) => (ev1, .error e)
    | (ev1, .ok archive_path) =>
      match Bootstrap.unpack w archive_path tmp with
      | (ev2, .error e) => (ev1 ++ ev2, .error e)
      | (ev2, .ok _) =>
        match Bootstrap.sample_project_name cfg fuel with
        | .error e => (ev1 ++ ev2, .error e)
        | .ok proj =>
          let samples := os_path_join (os_path_join tmp "Sinch") "samples"
          let sample_path := os_path_join samples proj
          if w.sampleExists then
            match Bootstrap.inject_credentials cfg fuel w sample_path with
            | (ev3, .error e) => (ev1 ++ ev2 ++ ev3, .error e)
            | (ev3, .ok _) =>
              match Bootstrap.move_to_desktop cfg fuel w tmp with
              | (ev4, .error e) => (ev1 ++ ev2 ++ ev3 ++ ev4, .error e)
              | (ev4, .ok dst) =>
                if w.xcodeprojExists then
                  (ev1 ++ ev2 ++ ev3 ++ ev4 ++ [Event.openFinder, Event.openXcode],
                   .ok ())
                else
                  (ev1 ++ ev2 ++ ev3 ++ ev4 ++ [Event.openFinder],
                   .error ("AssertionError: " ++
                     os_path_join (os_path_join (os_path_join dst "Sinch") "samples")
                       (proj ++ ".xcodeproj")))
          else (ev1 ++ ev2, .error ("Could not find sample at path " ++ sample_path))

/-- A configuration payload selecting the im sample with credentials, as
the dashboard generates it with short keys. -/
def cfgIM : Config :=
  read_config
    (JVal.obj
      [("s", JVal.str "im"),
       ("c", JVal.obj
         [("k", JVal.str "bd8dbc2d-053e"),
          ("s", JVal.str "YmY3ZTU0")])])

/-- A configuration payload whose sample name is not in the samples
dictionary. -/
def cfgUnknownSample : Config :=
  read_config (JVal.obj [("s", JVal.str "does-not-exist")])

/-- A run in which every external step succeeds. -/
def wOk : World :=
  World.mk true (some "http://download.sinch.com/ios/3.0/Sinch-iOS-3.0.0.tar.bz2")
    4096 true true true
    (some "key = \"<APPLICATION KEY>\";\nsecret = \"<APPLICATION SECRET>\";\nhost = \"sandbox.sinch.com\";\n")
    true "/Users/dev/Desktop" (fun _ => false) true

/-- A run in which the downloaded file is empty. -/
def wZero : World :=
  World.mk true (some "http://download.sinch.com/ios/3.0/Sinch-iOS-3.0.0.tar.bz2")
    0 true true true
    (some "key = \"<APPLICATION KEY>\";\n")
    true "/Users/dev/Desktop" (fun _ => false) true

/-- A run in which the downloaded file is a gzip compressed tar: the
tarfile library recognises it as a tar archive but refuses to open it in
bz2 mode. -/
def wGzip : World :=
  World.mk true (some "http://download.sinch.com/ios/3.0/Sinch-iOS-3.0.0.tar.gz")
    4096 true false true
    (some "key = \"<APPLICATION KEY>\";\n")
    true "/Users/dev/Desktop" (fun _ => false) true

/-- A configuration on which resolving the short key and resolving the
canonical key differ: the user values are empty and the defaults carry the
canonical key, which the unaliased defaults pass finds for sample but not
for s. -/
def cfgC3 : Config :=
  Config.mk (JVal.obj []) (JVal.obj [("sample", JVal.str "x")]) [("sample", "s")]

/-- A run in which the downloaded file is plain text: the tarfile library
rejects it outright. -/
def wPlainText : World :=
  World.mk true (some "http://download.sinch.com/oops.txt") 64 false false true
    (some "key = \"<APPLICATION KEY>\";\n")
    true "/Users/dev/Desktop" (fun _ => false) true

/-- An AppDelegate.m content with nine occurrences of the application key
placeholder, one per line. -/
def nineKeySource : String :=
  "<APPLICATION KEY>\n<APPLICATION KEY>\n<APPLICATION KEY>\n<APPLICATION KEY>\n<APPLICATION KEY>\n<APPLICATION KEY>\n<APPLICATION KEY>\n<APPLICATION KEY>\n<APPLICATION KEY>\n"

example :
    (read_config (JVal.obj [("s", JVal.str "im")])).getitem 5 "sample" =
      .ok (JVal.str "im") := rfl

example :
    (read_config (JVal.obj [("s", JVal.str "im")])).getitem 5 "archive" =
      .ok (JVal.str DEFAULT_ARCHIVE_URL) := rfl

example :
    (read_config (JVal.obj [("s", JVal.str "im")])).getitem 5 "credentials.environment" =
      .ok (JVal.str DEFAULT_SINCH_ENVIRONMENT) := rfl

example :
    (read_config (JVal.obj [("s", JVal.str "im")])).getitem 5 "credentials.application_key" =
      .error "Missing value for key \x27credentials.application_key\x27" := rfl

example : substitutedText "K9-x".data "<P>".data = .ok "K9-x".data := rfl
example : substitutedText "\\&".data "<P>".data = .ok "\\&".data := rfl
example : substitutedText "\\\\".data "<P>".data = .ok "\\".data := rfl
example : substitutedText "\\1".data "<P>".data = .error "invalid group reference" := rfl
example : substitutedText "\\g<0>!".data "<P>".data = .ok "<P>!".data := rfl
example : substitutedText "\\012".data "<P>".data = .ok "\n".data := rfl
example : substitutedText "\\123".data "<P>".data = .ok "S".data := rfl
example : substitutedText "\\d".data "<P>".data = .error "bad escape" := rfl
example : substitutedText "x\\".data "<P>".data = .error "bad escape (end of pattern)" := rfl

example :
    inject_credentials_source "K" "S" "env.sinch.com"
      "key = \"<APPLICATION KEY>\"; secret = \"<APPLICATION SECRET>\";" =
      .ok "key = \"K\"; secret = \"S\";" := rfl

example :
    inject_credentials_source "K" "S" "env.sinch.com"
      "a = \"sandbox.sinch.com\";" =
      .ok "a = \"env.sinch.com\";" := rfl

example :
    inject_credentials_source "K" "S" "env"
      "\"a.sinch.com\" x \"b.sinch.com\"" = .ok "\"env\"" := rfl

example :
    inject_credentials_source "K" "S" "env"
      "\"a.sinch.com\"\n\"b.sinch.com\"" = .ok "\"env\"\n\"env\"" := rfl

example : get_desktop_candidate (fun _ => false) "Sinch-im" = .ok "Sinch-im" := rfl
example :
    get_desktop_candidate (fun s => s == "Sinch-im") "Sinch-im" = .ok "Sinch-im-1" := rfl
example :
    get_desktop_candidate (fun _ => true) "Sinch-im" =
      .error "Could not find suitable target directory in ~/Desktop" := rfl

example :
    Bootstrap.run cfgIM 9 wOk "/tmp/tmpab12" =
      ([Event.urlopen, Event.extract, Event.inject, Event.copytree,
        Event.openFinder, Event.openXcode], .ok ()) := rfl

example :
    Bootstrap.run cfgUnknownSample 9 wOk "/tmp/tmpab12" =
      ([Event.urlopen, Event.extract],
       .error "Could not determine which sample to prepare") := rfl

/-- Alias substitution happens once, at entry: a lookup with alias
substitution enabled equals the lookup of the substituted key with it
disabled. -/
theorem get_value_alias_eq (aliases : List (String × String)) (f : Nat)
    (values : JVal) (key : String) :
    get_value aliases (f + 1) values key true =
      get_value aliases (f + 1) values ((List.lookup key aliases).getD key) false := rfl

/-- C4: for every key that the resolver finds with a non-null value in the
user supplied values mapping, getitem returns that value unchanged, for
every defaults mapping — the defaults are never consulted for it. -/
theorem C4_user_values_precedence (values defaults : JVal)
    (aliases : List (String × String)) (fuel : Nat) (key : String) (v : JVal)
    (h : get_value aliases fuel values key true = .ok (some v)) :
    Config.getitem (Config.mk values defaults aliases) fuel key = .ok v := by
  simp [Config.getitem, h]

/-- Witness for C4 at the im payload: the short key s is found in the user
values through the alias of sample, and is returned even though the
defaults mapping is arbitrary here. -/
theorem C4_witness :
    Config.getitem
      (Config.mk (JVal.obj [("s", JVal.str "im")]) configDefaults keyaliases)
      5 "sample" = .ok (JVal.str "im") :=
  C4_user_values_precedence (JVal.obj [("s", JVal.str "im")]) configDefaults
    keyaliases 5 "sample" (JVal.str "im") rfl

/-- C6: for every key that both resolution passes report as absent or
null, getitem raises the missing key error, and the message names the key
exactly as it was requested, not its aliased form. -/
theorem C6_missing_key_error (values defaults : JVal)
    (aliases : List (String × String)) (fuel : Nat) (key : String)
    (h1 : get_value aliases fuel values key true = .ok none)
    (h2 : get_value aliases fuel defaults key false = .ok none) :
    Config.getitem (Config.mk values defaults aliases) fuel key =
      .error ("Missing value for key \x27" ++ key ++ "\x27") := by
  simp [Config.getitem, h1, h2]

/-- Witness for C6: the user values bind the aliased short key s to null
and the defaults know nothing about the sample key, so requesting sample
raises, and the message names sample, not s. -/
theorem C6_witness :
    Config.getitem
      (Config.mk (JVal.obj [("s", JVal.jnull)]) (JVal.obj []) keyaliases)
      5 "sample" = .error "Missing value for key \x27sample\x27" :=
  C6_missing_key_error (JVal.obj [("s", JVal.jnull)]) (JVal.obj []) keyaliases
    5 "sample" rfl rfl

/-- C3 counterexample: with aliases mapping sample to s, resolving sample
succeeds through the defaults while resolving s raises a missing key
error, so the two lookups are not observationally identical. -/
theorem C3_counterexample :
    Config.getitem cfgC3 5 "sample" = .ok (JVal.str "x") ∧
    Config.getitem cfgC3 5 "s" = .error "Missing value for key \x27s\x27" ∧
    Config.getitem cfgC3 5 "sample" ≠ Config.getitem cfgC3 5 "s" :=
  ⟨rfl, rfl, fun h => Except.noConfusion h⟩

/-- C3 amended: alias resolution is transparent on the user values pass.
When the alias table sends sample to s and does not alias s itself, and
the user values pass finds a non-null value under s, then resolving sample
and resolving s return that same value.  (When the user values pass comes
back empty the two lookups may differ: the defaults pass applies no
aliasing, and a missing key error names the key as requested.) -/
theorem C3_alias_transparent_on_values (aliases : List (String × String))
    (values defaults : JVal) (fuel : Nat) (v : JVal)
    (hA : List.lookup "sample" aliases = some "s")
    (hS : List.lookup "s" aliases = none)
    (h : get_value aliases fuel values "s" true = .ok (some v)) :
    Config.getitem (Config.mk values defaults aliases) fuel "sample" = .ok v ∧
    Config.getitem (Config.mk values defaults aliases) fuel "s" = .ok v := by
  cases fuel with
  | zero => simp [get_value] at h
  | succ f =>
    have h1 : get_value aliases (f + 1) values "sample" true =
        get_value aliases (f + 1) values "s" true := by
      calc get_value aliases (f + 1) values "sample" true
          = get_value aliases (f + 1) values
              ((List.lookup "sample" aliases).getD "sample") false :=
            get_value_alias_eq aliases f values "sample"
        _ = get_value aliases (f + 1) values "s" false := by rw [hA]; rfl
        _ = get_value aliases (f + 1) values
              ((List.lookup "s" aliases).getD "s") false := by rw [hS]; rfl
        _ = get_value aliases (f + 1) values "s" true :=
            (get_value_alias_eq aliases f values "s").symm
    refine ⟨?_, ?_⟩
    · simp [Config.getitem, h1, h]
    · simp [Config.getitem, h]

/-- Witness for the amended C3 at the im payload: both spellings of the
sample key resolve to im. -/
theorem C3_witness :
    Config.getitem
      (Config.mk (JVal.obj [("s", JVal.str "im")]) configDefaults keyaliases)
      5 "sample" = .ok (JVal.str "im") ∧
    Config.getitem
      (Config.mk (JVal.obj [("s", JVal.str "im")]) configDefaults keyaliases)
      5 "s" = .ok (JVal.str "im") :=
  C3_alias_transparent_on_values keyaliases (JVal.obj [("s", JVal.str "im")])
    configDefaults 5 (JVal.str "im") rfl rfl rfl

/-- The candidate loop is the first-fit search over the remaining
candidate ordinals: it returns the first candidate, in ordinal order, that
the existence predicate rejects, and raises when none of them is free. -/
theorem findCandidateAux_eq_find (pathExists : String → Bool) (basepath : String) :
    ∀ (n i : Nat),
      findCandidateAux pathExists basepath i n =
        match (List.range' i n).map (fun j => basepath ++ ordinal2suffix j)
            |>.find? (fun p => !pathExists p) with
        | some p => .ok p
        | none => .error "Could not find suitable target directory in ~/Desktop"
  | 0, i => rfl
  | n + 1, i => by
    rw [List.range'_succ]
    simp only [List.map_cons, List.find?_cons]
    by_cases hp : pathExists (basepath ++ ordinal2suffix i)
    · simp only [findCandidateAux, hp, if_true, Bool.not_eq_true]
      rw [findCandidateAux_eq_find pathExists basepath n (i + 1)]
      simp [hp]
    · simp [findCandidateAux, hp]

/-- A found element satisfies the search predicate (specialisation of the
library lemma with the predicate held abstract). -/
theorem find?_pred_true {A : Type} (p : A → Bool) (l : List A) (a : A)
    (h : l.find? p = some a) : p a = true := List.find?_some h

/-- C5: for every nonempty base path and every existence predicate,
get_desktop_candidate never returns an existing path, and it behaves as
the first-fit search over the 99 candidates in the exact order of
desktopCandidates (the bare base path, then the dashed ordinals 1 to 98),
raising the no-suitable-destination error when all are occupied. -/
theorem C5_first_free_candidate (pathExists : String → Bool) (basepath : String)
    (h : basepath ≠ "") :
    (∀ p, get_desktop_candidate pathExists basepath = .ok p → pathExists p = false) ∧
    get_desktop_candidate pathExists basepath =
      (match (desktopCandidates basepath).find? (fun p => !pathExists p) with
       | some p => .ok p
       | none => .error "Could not find suitable target directory in ~/Desktop") := by
  have hlen : ¬ basepath.length = 0 := by
    intro h0
    apply h
    cases basepath with
    | mk data =>
      cases data with
      | nil => rfl
      | cons c cs => simp [String.length] at h0
  have h2 : get_desktop_candidate pathExists basepath =
      (match (desktopCandidates basepath).find? (fun p => !pathExists p) with
       | some p => .ok p
       | none => .error "Could not find suitable target directory in ~/Desktop") := by
    unfold get_desktop_candidate desktopCandidates
    rw [if_neg hlen, List.range_eq_range', findCandidateAux_eq_find]
  refine ⟨?_, h2⟩
  intro p hp
  rw [h2] at hp
  cases hfind : (desktopCandidates basepath).find? (fun p => !pathExists p) with
  | none => rw [hfind] at hp; exact Except.noConfusion hp
  | some q =>
    rw [hfind] at hp
    have hq := find?_pred_true (fun r => !pathExists r) (desktopCandidates basepath) q hfind
    have hpq : q = p := Except.ok.inj hp
    rw [← hpq]
    simpa using hq

/-- Witness for C5: with only the bare candidate occupied, the search
returns the first dashed candidate, which does not exist. -/
theorem C5_witness :
    get_desktop_candidate (fun s => s == "Sinch-im") "Sinch-im" = .ok "Sinch-im-1" := by
  rw [(C5_first_free_candidate (fun s => s == "Sinch-im") "Sinch-im"
    (by decide)).2]
  rfl

/-- A successful download: the network call happens and the archive lands
in the temporary directory under the package name. -/
theorem download_archive_ok (cfg : Config) (fuel : Nat) (w : World)
    (tmp url : String)
    (ha : cfg.getitem fuel "archive" = .ok (JVal.str url))
    (hnet : w.urlopenOk = true) (hsz : ¬ w.downloadedSize = 0) :
    Bootstrap.download_archive cfg fuel w tmp =
      ([Event.urlopen], .ok (os_path_join tmp (packageName w))) := by
  simp [Bootstrap.download_archive, ha, hnet, hsz]

/-- C7: in every pipeline run that reaches the fetch step and downloads a
zero byte file, the run aborts with the download failure error naming the
configured URL and the destination path, the only performed side effect is
the network call itself, and extraction is never attempted. -/
theorem C7_zero_byte_rejected (cfg : Config) (fuel : Nat) (w : World)
    (tmp url : String) (sv : JVal)
    (hs : cfg.getitem fuel "sample" = .ok sv)
    (ha : cfg.getitem fuel "archive" = .ok (JVal.str url))
    (hnet : w.urlopenOk = true)
    (hz : w.downloadedSize = 0) :
    Bootstrap.run cfg fuel w tmp =
      ([Event.urlopen],
       .error ("Failed to download \x27" ++ url ++ "\x27 to \x27" ++
         os_path_join tmp (packageName w) ++ "\x27")) ∧
    Event.extract ∉ [Event.urlopen] := by
  have hd : Bootstrap.download_archive cfg fuel w tmp =
      ([Event.urlopen],
       .error ("Failed to download \x27" ++ url ++ "\x27 to \x27" ++
         os_path_join tmp (packageName w) ++ "\x27")) := by
    simp [Bootstrap.download_archive, ha, hnet, hz]
  refine ⟨?_, by decide⟩
  simp [Bootstrap.run, hs, hd]

/-- Witness for C7: the im payload with an empty download aborts naming
the default archive URL and the destination file. -/
theorem C7_witness :
    Bootstrap.run cfgIM 9 wZero "/tmp/tmpab12" =
      ([Event.urlopen],
       .error ("Failed to download \x27" ++ DEFAULT_ARCHIVE_URL ++ "\x27 to \x27" ++
         os_path_join "/tmp/tmpab12" (packageName wZero) ++ "\x27")) ∧
    Event.extract ∉ [Event.urlopen] :=
  C7_zero_byte_rejected cfgIM 9 wZero "/tmp/tmpab12" DEFAULT_ARCHIVE_URL
    (JVal.str "im") rfl rfl rfl rfl

/-- C8: for every input file the tarfile library does not recognise as a
tar archive (for example plain text), unpack raises the unreadable package
error naming the path, with an empty side effect trace: no extraction is
attempted and no partially extracted directory is produced. -/
theorem C8_non_tar_rejected (w : World) (tar_path dst_dir : String)
    (h : w.isTar = false) :
    Bootstrap.unpack w tar_path dst_dir =
      ([], .error ("Unable to read package file " ++ tar_path)) := by
  simp [Bootstrap.unpack, h]

/-- Witness for C8 on a concrete plain text download. -/
theorem C8_witness :
    Bootstrap.unpack wPlainText "/tmp/tmpab12/oops.txt" "/tmp/tmpab12" =
      ([], .error "Unable to read package file /tmp/tmpab12/oops.txt") :=
  C8_non_tar_rejected wPlainText "/tmp/tmpab12/oops.txt" "/tmp/tmpab12" rfl

/-- The bz2 open failure is a different exception from the unreadable
package error, whatever path the latter would name: the two messages
differ already in their first character. -/
theorem tarReadErrorMsg_ne_unreadable (p : String) :
    tarReadErrorMsg ≠ "Unable to read package file " ++ p := by
  intro h
  have h2 : tarReadErrorMsg.data = "Unable to read package file ".data ++ p.data := by
    rw [h]
    exact String.data_append _ _
  have h3 : tarReadErrorMsg.data.head? = some 'R' := rfl
  have h4 : ("Unable to read package file ".data ++ p.data).head? = some 'U' := rfl
  rw [h2, h4] at h3
  exact absurd (Option.some.inj h3) (by decide)

/-- C9: in every run whose downloaded file the tarfile library recognises
as a tar archive but which cannot be opened in bz2 mode (for example a
gzip compressed or uncompressed tar), the run fails with the bz2 open
error, no extraction happens, and the failure is not the unreadable
package error, whatever path that error would name. -/
theorem C9_wrong_compression_fails_differently (cfg : Config) (fuel : Nat)
    (w : World) (tmp url : String) (sv : JVal)
    (hs : cfg.getitem fuel "sample" = .ok sv)
    (ha : cfg.getitem fuel "archive" = .ok (JVal.str url))
    (hnet : w.urlopenOk = true) (hsz : ¬ w.downloadedSize = 0)
    (htar : w.isTar = true) (hbz : w.bz2Ok = false) :
    Bootstrap.run cfg fuel w tmp = ([Event.urlopen], .error tarReadErrorMsg) ∧
    (∀ p : String, tarReadErrorMsg ≠ "Unable to read package file " ++ p) := by
  have hd := download_archive_ok cfg fuel w tmp url ha hnet hsz
  have hu : Bootstrap.unpack w (os_path_join tmp (packageName w)) tmp =
      ([], .error tarReadErrorMsg) := by
    simp [Bootstrap.unpack, htar, hbz]
  refine ⟨?_, tarReadErrorMsg_ne_unreadable⟩
  simp [Bootstrap.run, hs, hd, hu]

/-- Witness for C9 on a gzip compressed SDK archive. -/
theorem C9_witness :
    Bootstrap.run cfgIM 9 wGzip "/tmp/tmpab12" =
      ([Event.urlopen], .error tarReadErrorMsg) ∧
    tarReadErrorMsg ≠ "Unable to read package file " ++ "/tmp/tmpab12/oops.tar.gz" :=
  And.intro
    (C9_wrong_compression_fails_differently cfgIM 9 wGzip "/tmp/tmpab12"
      DEFAULT_ARCHIVE_URL (JVal.str "im") rfl rfl rfl (by decide) rfl rfl).1
    ((C9_wrong_compression_fails_differently cfgIM 9 wGzip "/tmp/tmpab12"
      DEFAULT_ARCHIVE_URL (JVal.str "im") rfl rfl rfl (by decide) rfl rfl).2
      "/tmp/tmpab12/oops.tar.gz")

/-- C1 counterexample: for a configuration whose sample name is unknown
the pipeline does fail with the unknown sample error, but only after the
archive fetch: the trace of the run already contains the network call, so
the claim that the failure precedes any network call is false on this
input. -/
theorem C1_counterexample :
    Bootstrap.run cfgUnknownSample 9 wOk "/tmp/tmpab12" =
      ([Event.urlopen, Event.extract],
       .error "Could not determine which sample to prepare") ∧
    Event.urlopen ∈ [Event.urlopen, Event.extract] :=
  ⟨rfl, by decide⟩

/-- C1 amended: for every configuration whose resolved sample name is a
string outside the samples dictionary, a run in which the download and the
extraction succeed fails with the unknown sample error at the
verify_unpacked step — after the archive fetch network call and the
extraction, and before credential injection and relocation, which never
appear in the trace. -/
theorem C1_unknown_sample_fails_after_fetch (cfg : Config) (fuel : Nat)
    (w : World) (tmp s url : String)
    (hs : cfg.getitem fuel "sample" = .ok (JVal.str s))
    (h1 : s ≠ "im") (h2 : s ≠ "app-to-app") (h3 : s ≠ "app-to-phone")
    (h4 : s ≠ "video")
    (ha : cfg.getitem fuel "archive" = .ok (JVal.str url))
    (hnet : w.urlopenOk = true) (hsz : ¬ w.downloadedSize = 0)
    (htar : w.isTar = true) (hbz : w.bz2Ok = true) :
    Bootstrap.run cfg fuel w tmp =
      ([Event.urlopen, Event.extract],
       .error "Could not determine which sample to prepare") := by
  have hd := download_archive_ok cfg fuel w tmp url ha hnet hsz
  have hu : Bootstrap.unpack w (os_path_join tmp (packageName w)) tmp =
      ([Event.extract], .ok tmp) := by
    simp [Bootstrap.unpack, htar, hbz]
  have e1 : (s == "im") = false := beq_eq_false_iff_ne.mpr h1
  have e2 : (s == "app-to-app") = false := beq_eq_false_iff_ne.mpr h2
  have e3 : (s == "app-to-phone") = false := beq_eq_false_iff_ne.mpr h3
  have e4 : (s == "video") = false := beq_eq_false_iff_ne.mpr h4
  have hsp : Bootstrap.sample_project_name cfg fuel =
      .error "Could not determine which sample to prepare" := by
    simp [Bootstrap.sample_project_name, hs, samplesGet, sampleTable,
      List.lookup, e1, e2, e3, e4]
  simp [Bootstrap.run, hs, hd, hu, hsp]

/-- Witness for the amended C1 on a concrete unknown sample name. -/
theorem C1_witness :
    Bootstrap.run cfgUnknownSample 9 wOk "/tmp/tmpcd34" =
      ([Event.urlopen, Event.extract],
       .error "Could not determine which sample to prepare") :=
  C1_unknown_sample_fails_after_fetch cfgUnknownSample 9 wOk "/tmp/tmpcd34"
    "does-not-exist" DEFAULT_ARCHIVE_URL rfl (by decide) (by decide) (by decide)
    (by decide) rfl rfl (by decide) rfl rfl

set_option maxRecDepth 40000 in
/-- C2: the source passes opts = re.MULTILINE (numeric value 8) as the
positional count argument of re.sub, so each substitution replaces at most
8 occurrences; on a file with nine key placeholders the ninth survives,
contradicting the stated all-matches behaviour (and the flags intent of
the code).  The second conjunct exhibits the surviving placeholder right
after the eight replaced lines. -/
theorem C2_count_bug :
    inject_credentials_source "K" "S" "env" nineKeySource =
      .ok "K\nK\nK\nK\nK\nK\nK\nK\n<APPLICATION KEY>\n" ∧
    keyPlaceholder.isPrefixOf
      ("K\nK\nK\nK\nK\nK\nK\nK\n<APPLICATION KEY>\n".data.drop 16) = true :=
  ⟨rfl, rfl⟩

/-- Replacement templates without a backslash parse to their own literal
characters. -/
theorem parseTemplateAux_no_backslash :
    ∀ (fuel : Nat) (v : List Char), v.length < fuel →
      v.all (fun c => c ≠ '\\') = true →
      parseTemplateAux fuel v = .ok (v.map TemplTok.lit)
  | 0, v, h, _ => absurd h (by omega)
  | _ + 1, [], _, _ => rfl
  | fuel + 1, c :: rest, hl, ha => by
    simp only [List.all_cons, Bool.and_eq_true, decide_eq_true_eq] at ha
    have hr := parseTemplateAux_no_backslash fuel rest
      (by simpa using Nat.lt_of_succ_lt_succ hl) (by simpa using ha.2)
    simp [parseTemplateAux, ha.1, hr, Except.map]

/-- Expanding a template of pure literals returns those literals. -/
theorem expandToks_map_lit :
    ∀ (v matched : List Char), expandToks (v.map TemplTok.lit) matched = v
  | [], _ => rfl
  | c :: rest, m => congrArg (fun l => c :: l) (expandToks_map_lit rest m)

/-- C10 counterexample: the replacement value backslash ampersand contains
a backslash, yet re leaves this unknown non-letter escape alone, so the
substituted text equals the configured value exactly; equality of the
substituted text with the literal value therefore does not entail absence
of backslashes. -/
theorem C10_counterexample :
    inject_credentials_source "\\&" "S" "env" "<APPLICATION KEY>" = .ok "\\&" ∧
    "\\&".data.contains '\\' = true :=
  ⟨rfl, rfl⟩

/-- C10 amended: a backslash-free credential value is always inserted
literally; for some values containing backslash escape sequences the
substitution raises (group references such as backslash 1), and for others
the written content differs from the configured value (a doubled backslash
collapses to one); certain other backslash escapes (such as backslash
ampersand) are nevertheless inserted unchanged. -/
theorem C10_template_expansion :
    (∀ v matched : List Char, v.all (fun c => c ≠ '\\') = true →
      substitutedText v matched = .ok v) ∧
    inject_credentials_source "\\1" "S" "env" "<APPLICATION KEY>" =
      .error "invalid group reference" ∧
    inject_credentials_source "\\\\" "S" "env" "<APPLICATION KEY>" = .ok "\\" := by
  refine ⟨?_, rfl, rfl⟩
  intro v matched h
  unfold substitutedText parseTemplate
  rw [parseTemplateAux_no_backslash (v.length + 1) v (by omega) h]
  simp [Except.map, expandToks_map_lit]

/-- Witness for the amended C10 on a backslash-free value. -/
theorem C10_witness :
    substitutedText "K".data "<APPLICATION KEY>".data = .ok "K".data :=
  C10_template_expansion.1 "K".data "<APPLICATION KEY>".data (by decide)
